import Mathlib

/-!
Shallow embedding of the weather application's forecast-normalizer and
data-access logic (files `lecture-5_dbver/weather_app/src/rewrite_.py`,
`lecture-5_dbver/weather_app/src/db_manager.py` and
`lecture-5/weather_app/src/mfin.py`).

Python values flowing through the parser are modelled by the `Json` type;
operations that can raise a Python exception return `Except Unit`, and the
blanket `try/except` wrappers of the source are modelled by mapping the
error case to the source's fallback value.
-/

/-- JSON-ish Python values handled by the application.  JSON numbers are
modelled as integers: every numeric field the code touches holds either an
integer-valued weather code or a temperature string, never a fractional
number. -/
inductive Json where
  | null : Json
  | bool : Bool → Json
  | num : Int → Json
  | str : String → Json
  | arr : List Json → Json
  | obj : List (String × Json) → Json

/-- Python truthiness (`if x:`) for the values of `Json`: `None`, `False`,
`0`, empty string, empty list and empty dict are falsy. -/
def truthy : Json → Bool
  | .null => false
  | .bool b => b
  | .num n => n != 0
  | .str s => s != ""
  | .arr xs => !xs.isEmpty
  | .obj fs => !fs.isEmpty

/-- Python `x == ""` on a `Json` value: true exactly for the empty string
(comparison of a non-string with a string is `False`, never an error). -/
def isEmptyStr : Json → Bool
  | .str s => s == ""
  | _ => false

/-- Python subscription `x[i]` with a non-negative integer index, as used by
the parser: element of a list, character of a string (as a 1-character
string); any other receiver raises (`KeyError` for a dict with string keys,
`TypeError` otherwise). -/
def getIdx (j : Json) (i : Nat) : Except Unit Json :=
  match j with
  | .arr xs =>
    match xs.get? i with
    | some x => .ok x
    | none => .error ()
  | .str s =>
    match s.data.get? i with
    | some c => .ok (.str (String.mk [c]))
    | none => .error ()
  | _ => .error ()

/-- Python subscription `x["k"]` with a string key: dict lookup, raising
`KeyError` when the key is absent and `TypeError` on a non-dict. -/
def getKey (j : Json) (k : String) : Except Unit Json :=
  match j with
  | .obj fs =>
    match fs.find? (fun p => p.1 == k) with
    | some p => .ok p.2
    | none => .error ()
  | _ => .error ()

/-- Python `x.get("k")` on a dict: `None` when the key is absent; raises
`AttributeError` when `x` is not a dict. -/
def dictGet (j : Json) (k : String) : Except Unit Json :=
  match j with
  | .obj fs =>
    match fs.find? (fun p => p.1 == k) with
    | some p => .ok p.2
    | none => .ok .null
  | _ => .error ()

/-- Python `x.keys()` (as the list of keys): raises on a non-dict. -/
def keysOf (j : Json) : Except Unit (List String) :=
  match j with
  | .obj fs => .ok (fs.map (fun p => p.1))
  | _ => .error ()

/-- Python iteration `for x in v`: elements of a list, keys of a dict,
1-character strings of a string; raises `TypeError` otherwise. -/
def pyIter (j : Json) : Except Unit (List Json) :=
  match j with
  | .arr xs => .ok xs
  | .obj fs => .ok (fs.map (fun p => .str p.1))
  | .str s => .ok (s.data.map (fun c => .str (String.mk [c])))
  | _ => .error ()

/-- Python `len(v)`: defined exactly on the iterable values, counting the
same elements as `pyIter`. -/
def pyLen (j : Json) : Except Unit Nat :=
  match pyIter j with
  | .ok xs => .ok xs.length
  | .error e => .error e

/-- Decides whether the character list `n` is a prefix of `h`. -/
def startsWithChars : List Char → List Char → Bool
  | [], _ => true
  | _ :: _, [] => false
  | a :: as, b :: bs => a == b && startsWithChars as bs

/-- Decides whether the character list `n` occurs contiguously in `h`. -/
def containsChars : List Char → List Char → Bool
  | n, [] => startsWithChars n []
  | n, c :: t => startsWithChars n (c :: t) || containsChars n t

/-- Python membership `"k" in v`: key membership for a dict, element
equality for a list (only string elements can equal a string), substring
containment for a string; raises `TypeError` otherwise. -/
def pyIn (needle : String) (j : Json) : Except Unit Bool :=
  match j with
  | .obj fs => .ok (fs.any (fun p => p.1 == needle))
  | .arr xs =>
    .ok (xs.any (fun x =>
      match x with
      | .str s => s == needle
      | _ => false))
  | .str s => .ok (containsChars needle.data s.data)
  | _ => .error ()

/-- Numeric value of a list of decimal digit characters, `none` if the list
is empty or contains a non-digit. -/
def digitsVal : List Char → Option Nat
  | [] => none
  | [c] => if c.isDigit then some (c.toNat - 48) else none
  | c :: rest =>
    match digitsVal rest, (if c.isDigit then some (c.toNat - 48) else none) with
    | some n, some d => some (d * 10 ^ rest.length + n)
    | _, _ => none

/-- Removes leading and trailing whitespace characters. -/
def stripChars (l : List Char) : List Char :=
  ((l.dropWhile Char.isWhitespace).reverse.dropWhile Char.isWhitespace).reverse

/-- Python `int(s)` on a string: surrounding whitespace is stripped, an
optional sign precedes a non-empty run of decimal digits; anything else
raises `ValueError`.  (Underscore digit grouping, which never occurs in the
upstream data, is not modelled.) -/
def pyIntOfChars (l : List Char) : Except Unit Int :=
  match stripChars l with
  | '-' :: rest =>
    match digitsVal rest with
    | some n => .ok (-(n : Int))
    | none => .error ()
  | '+' :: rest =>
    match digitsVal rest with
    | some n => .ok (n : Int)
    | none => .error ()
  | rest =>
    match digitsVal rest with
    | some n => .ok (n : Int)
    | none => .error ()

/-- Python `int(x)` on the values of `Json`: integers are themselves, bools
are 0 or 1, strings are parsed, everything else raises. -/
def pyInt (j : Json) : Except Unit Int :=
  match j with
  | .num n => .ok n
  | .bool b => .ok (if b then 1 else 0)
  | .str s => pyIntOfChars s.data
  | _ => .error ()

mutual
/-- Python `str(x)` as used by f-string interpolation: the string itself for
strings, `repr` for every other value. -/
def pyStr : Json → String
  | .str s => s
  | j => pyRepr j

/-- Python `repr(x)` on the values of `Json` (composite values are rendered
in Python's list/dict style; these shapes never reach the UI strings the
spec describes). -/
def pyRepr : Json → String
  | .null => "None"
  | .bool b => if b then "True" else "False"
  | .num n => toString n
  | .str s => String.mk (Char.ofNat 39 :: s.data ++ [Char.ofNat 39])
  | .arr xs => "[" ++ String.intercalate ", " (pyReprList xs) ++ "]"
  | .obj _ => "\x7bdict\x7d"

/-- Renders each element of a list of values with `pyRepr`. -/
def pyReprList : List Json → List String
  | [] => []
  | x :: xs => pyRepr x :: pyReprList xs
end

/-- Weather status text from a weather code, inner range dispatch shared by
`_get_weather_status_text` (rewrite_.py lines 217-227) and
`_get_jma_status_text` (mfin.py lines 68-78). -/
def statusTextInt (c : Int) : String :=
  if 100 ≤ c ∧ c < 200 then "晴れ"
  else if 200 ≤ c ∧ c < 300 then "くもり"
  else if 300 ≤ c ∧ c < 400 then "雨"
  else if 400 ≤ c ∧ c < 500 then "雪"
  else "-"

/-- `DataManager._get_weather_status_text` (rewrite_.py lines 214-229),
identical to `DataManager._get_jma_status_text` (mfin.py lines 66-80): the
`int(code)` conversion and the whole range dispatch sit inside a
`try/except` that returns `"-"` on any failure. -/
def statusText (code : Json) : String :=
  match pyInt code with
  | .ok c => statusTextInt c
  | .error _ => "-"

/-- Icon and colour tags from a weather code, inner range dispatch of
`_get_weather_icon_and_color` (rewrite_.py lines 200-212; flet enum members
are modelled by their names). -/
def iconColorInt (c : Int) : String × String :=
  if 100 ≤ c ∧ c < 200 then ("WB_SUNNY", "ORANGE")
  else if 200 ≤ c ∧ c < 300 then ("CLOUD", "GREY")
  else if 300 ≤ c ∧ c < 400 then ("WATER_DROP", "BLUE")
  else if 400 ≤ c ∧ c < 500 then ("AC_UNIT", "CYAN")
  else ("HELP_OUTLINE", "GREY")

/-- `DataManager._get_weather_icon_and_color` (rewrite_.py lines 200-212):
unlike the status-text function it has no `try/except`, so an unparseable
code propagates the `ValueError`. -/
def iconAndColor (code : Json) : Except Unit (String × String) :=
  match pyInt code with
  | .ok c => .ok (iconColorInt c)
  | .error e => .error e

/-- Per-subregion weekly temperature record built by `_parse_jma_data`
(rewrite_.py lines 140-151): the dicts tagged `"type": "weekly"` (with
`tempsMin`/`tempsMax` values) or `"type": "daily"` (with a `temps` value). -/
inductive WeeklyTemps where
  | weekly : Json → Json → WeeklyTemps
  | daily : Json → WeeklyTemps

/-- `DataManager._format_temperature` (rewrite_.py lines 231-258).  The
first argument is `weekly_temps` (`none` models Python `None`), the second
`short_temps` (a raw JSON value; the parser defaults it to an empty list),
the third `time_index`.  Indexing into the min/max/temps/short values can
raise, hence the `Except` result. -/
def formatTemperature (wt : Option WeeklyTemps) (st : Json) (i : Nat) :
    Except Unit String :=
  match wt with
  | none => .ok "--"
  | some (.daily temps) =>
    match getIdx temps i with
    | .error e => .error e
    | .ok v => .ok (if truthy v then pyStr v ++ "°C" else "--")
  | some (.weekly mins maxs) =>
    match getIdx mins i with
    | .error e => .error e
    | .ok minV =>
      match getIdx maxs i with
      | .error e => .error e
      | .ok maxV =>
        if (isEmptyStr minV || isEmptyStr maxV) && i == 0 then
          if truthy st then
            match pyLen st with
            | .error e => .error e
            | .ok n =>
              if 2 ≤ n then
                match getIdx st 0 with
                | .error e => .error e
                | .ok a =>
                  match getIdx st 1 with
                  | .error e => .error e
                  | .ok b => .ok (pyStr a ++ "-" ++ pyStr b ++ "°C")
              else if n == 1 then
                match getIdx st 0 with
                | .error e => .error e
                | .ok a => .ok (pyStr a ++ "°C")
              else .ok "--"
          else .ok "--"
        else
          if truthy minV && truthy maxV then
            .ok (pyStr minV ++ "-" ++ pyStr maxV ++ "°C")
          else if truthy maxV || truthy minV then
            .ok ((if truthy maxV then pyStr maxV else pyStr minV) ++ "°C")
          else .ok "--"

/-- Temperature display logic of the lecture-5 variant, inlined in
`DataManager._parse_jma_data` (mfin.py lines 148-173).  It differs from
`formatTemperature` in the off-step-0 weekly branch: when neither min nor
max is truthy it still formats the value, producing the string `"°C"`
instead of keeping the `"--"` placeholder (mfin.py lines 165-169). -/
def formatTemperatureMfin (wt : Option WeeklyTemps) (st : Json) (i : Nat) :
    Except Unit String :=
  match wt with
  | none => .ok "--"
  | some (.daily temps) =>
    match getIdx temps i with
    | .error e => .error e
    | .ok v => .ok (if truthy v then pyStr v ++ "°C" else "--")
  | some (.weekly mins maxs) =>
    match getIdx mins i with
    | .error e => .error e
    | .ok minV =>
      match getIdx maxs i with
      | .error e => .error e
      | .ok maxV =>
        if (isEmptyStr minV || isEmptyStr maxV) && i == 0 then
          if truthy st then
            match pyLen st with
            | .error e => .error e
            | .ok n =>
              if 2 ≤ n then
                match getIdx st 0 with
                | .error e => .error e
                | .ok a =>
                  match getIdx st 1 with
                  | .error e => .error e
                  | .ok b => .ok (pyStr a ++ "-" ++ pyStr b ++ "°C")
              else if n == 1 then
                match getIdx st 0 with
                | .error e => .error e
                | .ok a => .ok (pyStr a ++ "°C")
              else .ok "--"
          else .ok "--"
        else
          if truthy minV && truthy maxV then
            .ok (pyStr minV ++ "-" ++ pyStr maxV ++ "°C")
          else
            .ok ((if truthy maxV then pyStr maxV else pyStr minV) ++ "°C")

/-- Forecast-entry record assembled by `_parse_jma_data` (rewrite_.py lines
181-187): date label, icon tag, status text, temperature display string and
colour tag. -/
structure Forecast where
  day : String
  icon : String
  status : String
  temp : String
  color : String

/-- Subregion record assembled by `_parse_jma_data` (rewrite_.py lines
189-192): the raw `area.name` value and the ordered forecast entries. -/
structure SubArea where
  areaName : Json
  forecasts : List Forecast

/-- Extraction of `report_short` and `report_weekly` (rewrite_.py lines
111-112): `raw_json[0]`, then `raw_json[1]` when `len(raw_json) > 1`, else
`raw_json[0]` again. -/
def getReports (j : Json) : Except Unit (Json × Json) :=
  match getIdx j 0 with
  | .error e => .error e
  | .ok rs =>
    match pyLen j with
    | .error e => .error e
    | .ok n =>
      if 1 < n then
        match getIdx j 1 with
        | .error e => .error e
        | .ok rw => .ok (rs, rw)
      else .ok (rs, rs)

/-- Short-term temperature extraction loop of `_parse_jma_data`
(rewrite_.py lines 115-120): the first series whose truthy `areas` value has
`"temps"` in its first element contributes every area's `temps` value, then
the loop breaks; no matching series yields an empty table. -/
def extractShortTemps : List Json → Except Unit (List Json)
  | [] => .ok []
  | s :: rest =>
    match dictGet s "areas" with
    | .error e => .error e
    | .ok av =>
      if truthy av then
        match getIdx av 0 with
        | .error e => .error e
        | .ok a0 =>
          match pyIn "temps" a0 with
          | .error e => .error e
          | .ok hasTemps =>
            if hasTemps then
              match pyIter av with
              | .error e => .error e
              | .ok as => as.mapM (fun a => getKey a "temps")
            else extractShortTemps rest
      else extractShortTemps rest

/-- Weekly series identification loop of `_parse_jma_data` (rewrite_.py
lines 123-132): series with falsy `areas` are skipped; a series whose first
area has a `weatherCodes` key becomes the weather series, otherwise one with
a `temps` or `tempsMin` key becomes the temperature series; later matches
overwrite earlier ones. -/
def findSeries : List Json → Option Json × Option Json →
    Except Unit (Option Json × Option Json)
  | [], acc => .ok acc
  | s :: rest, acc =>
    match dictGet s "areas" with
    | .error e => .error e
    | .ok av =>
      if truthy av then
        match getIdx av 0 with
        | .error e => .error e
        | .ok a0 =>
          match keysOf a0 with
          | .error e => .error e
          | .ok ks =>
            if ks.contains "weatherCodes" then
              findSeries rest (some s, acc.2)
            else if ks.contains "temps" || ks.contains "tempsMin" then
              findSeries rest (acc.1, some s)
            else findSeries rest acc
      else findSeries rest acc

/-- `timeSeries` traversal shared by the two extraction phases: the value of
a report's `timeSeries` key as an iterated list. -/
def timeSeriesOf (report : Json) : Except Unit (List Json) :=
  match getKey report "timeSeries" with
  | .error e => .error e
  | .ok ts => pyIter ts

/-- Weekly series split of `_parse_jma_data` applied to the weekly report
(rewrite_.py lines 123-132). -/
def weeklySplit (rw : Json) : Except Unit (Option Json × Option Json) :=
  match timeSeriesOf rw with
  | .error e => .error e
  | .ok l => findSeries l (none, none)

/-- Weekly temperature table of `_parse_jma_data` (rewrite_.py lines
138-151): each area of the temperature series becomes a `weekly` record
when it has a `tempsMin` key (membership is tested Python-style on the area
value itself) and a `daily` record otherwise. -/
def extractWeeklyTemps (tsT : Json) : Except Unit (List WeeklyTemps) :=
  match getKey tsT "areas" with
  | .error e => .error e
  | .ok av =>
    match pyIter av with
    | .error e => .error e
    | .ok as =>
      as.mapM (fun a =>
        match pyIn "tempsMin" a with
        | .error e => .error e
        | .ok hasMin =>
          if hasMin then
            match getKey a "tempsMin" with
            | .error e => .error e
            | .ok mins =>
              match getKey a "tempsMax" with
              | .error e => .error e
              | .ok maxs => .ok (WeeklyTemps.weekly mins maxs)
          else
            match getKey a "temps" with
            | .error e => .error e
            | .ok temps => .ok (WeeklyTemps.daily temps))

/-- Model of `datetime.datetime.fromisoformat` restricted to the fields the
code uses: the leading `YYYY-MM-DD` date part is parsed and its month and
day returned; any suffix (time of day, offset) is accepted unchecked, and
day validity is checked only against 1..31 rather than the month length.
Raises on anything that is not a digit/dash date prefix. -/
def fromIso (s : String) : Except Unit (Nat × Nat) :=
  match s.data with
  | y1 :: y2 :: y3 :: y4 :: '-' :: m1 :: m2 :: '-' :: d1 :: d2 :: _ =>
    if y1.isDigit && y2.isDigit && y3.isDigit && y4.isDigit &&
        m1.isDigit && m2.isDigit && d1.isDigit && d2.isDigit then
      let m := (m1.toNat - 48) * 10 + (m2.toNat - 48)
      let d := (d1.toNat - 48) * 10 + (d2.toNat - 48)
      if 1 ≤ m && m ≤ 12 && 1 ≤ d && d ≤ 31 then .ok (m, d)
      else .error ()
    else .error ()
  | _ => .error ()

/-- Date formatting of `_parse_jma_data` (rewrite_.py lines 156-158):
`datetime.datetime.fromisoformat(t)` (a `TypeError` on a non-string)
followed by the `f"{dt.month}/{dt.day}"` label. -/
def formatDate (t : Json) : Except Unit String :=
  match t with
  | .str s =>
    match fromIso s with
    | .error e => .error e
    | .ok md => .ok (toString md.1 ++ "/" ++ toString md.2)
  | _ => .error ()

/-- Formats the whole `timeDefines` list (rewrite_.py lines 155-158). -/
def formatDates : List Json → Except Unit (List String)
  | [] => .ok []
  | t :: ts =>
    match formatDate t with
    | .error e => .error e
    | .ok d =>
      match formatDates ts with
      | .error e => .error e
      | .ok ds => .ok (d :: ds)

/-- Inner forecast loop of `_parse_jma_data` (rewrite_.py lines 170-187):
iterates the forecast steps in `timeDefines` order (the `dates` list has one
label per step), breaking as soon as the step index reaches
`len(weather_codes)`; each surviving step evaluates the weather code's icon,
colour, status text and display temperature. -/
def buildFrom (codes : Json) (wt : Option WeeklyTemps) (st : Json) :
    Nat → List String → Except Unit (List Forecast)
  | _, [] => .ok []
  | i, d :: ds =>
    match pyLen codes with
    | .error e => .error e
    | .ok n =>
      if n ≤ i then .ok []
      else
        match getIdx codes i with
        | .error e => .error e
        | .ok c =>
          match iconAndColor c with
          | .error e => .error e
          | .ok ic =>
            match formatTemperature wt st i with
            | .error e => .error e
            | .ok t =>
              match buildFrom codes wt st (i + 1) ds with
              | .error e => .error e
              | .ok rest =>
                .ok ({ day := d, icon := ic.1, status := statusText c,
                       temp := t, color := ic.2 } :: rest)

/-- Per-area assembly of `_parse_jma_data` (rewrite_.py lines 162-192): the
`i`-th weather area is matched positionally against the weekly temperature
table (`None` past its end) and the short-term table (empty list past its
end), then its `area.name` and forecast list are packaged. -/
def buildArea (dates : List String) (wtd : List WeeklyTemps)
    (stm : List Json) (i : Nat) (areaData : Json) : Except Unit SubArea :=
  match getKey areaData "area" with
  | .error e => .error e
  | .ok areaObj =>
    match getKey areaObj "name" with
    | .error e => .error e
    | .ok name =>
      match getKey areaData "weatherCodes" with
      | .error e => .error e
      | .ok codes =>
        match buildFrom codes (wtd.get? i) ((stm.get? i).getD (.arr []))
            0 dates with
        | .error e => .error e
        | .ok fs => .ok { areaName := name, forecasts := fs }

/-- Enumerated traversal of the weather series' areas (rewrite_.py lines
161-192). -/
def buildAreas (dates : List String) (wtd : List WeeklyTemps)
    (stm : List Json) : Nat → List Json → Except Unit (List SubArea)
  | _, [] => .ok []
  | i, a :: rest =>
    match buildArea dates wtd stm i a with
    | .error e => .error e
    | .ok sa =>
      match buildAreas dates wtd stm (i + 1) rest with
      | .error e => .error e
      | .ok sas => .ok (sa :: sas)

/-- Short-term phase of `_parse_jma_data` (rewrite_.py lines 115-120)
applied to the short-range report: traverse its `timeSeries` value and run
the short-term temperature extraction loop. -/
def shortPhase (rs : Json) : Except Unit (List Json) :=
  match timeSeriesOf rs with
  | .error e => .error e
  | .ok l => extractShortTemps l

/-- Weekly temperature phase of `_parse_jma_data` (rewrite_.py lines
138-151): with no temperature series the table stays empty, otherwise the
series' areas are classified. -/
def weeklyTempPhase (tsT : Option Json) : Except Unit (List WeeklyTemps) :=
  match tsT with
  | none => .ok []
  | some t => extractWeeklyTemps t

/-- The weather series' `timeDefines` value as an iterated list
(rewrite_.py lines 154-156). -/
def timeDefinesList (tsW : Json) : Except Unit (List Json) :=
  match getKey tsW "timeDefines" with
  | .error e => .error e
  | .ok tdv => pyIter tdv

/-- The weather series' `areas` value as an iterated list (rewrite_.py line
162). -/
def areasList (tsW : Json) : Except Unit (List Json) :=
  match getKey tsW "areas" with
  | .error e => .error e
  | .ok av => pyIter av

/-- Body of `DataManager._parse_jma_data` (rewrite_.py lines 110-194), the
part guarded by the blanket `try`: any Python exception surfaces as
`.error`, while the explicit `return []` on a missing weather series is a
successful empty result. -/
def parseJmaBody (j : Json) : Except Unit (List SubArea) :=
  match getReports j with
  | .error e => .error e
  | .ok rp =>
    match shortPhase rp.1 with
    | .error e => .error e
    | .ok stm =>
      match weeklySplit rp.2 with
      | .error e => .error e
      | .ok sp =>
        match sp.1 with
        | none => .ok []
        | some tsW =>
          match weeklyTempPhase sp.2 with
          | .error e => .error e
          | .ok wtd =>
            match timeDefinesList tsW with
            | .error e => .error e
            | .ok tds =>
              match formatDates tds with
              | .error e => .error e
              | .ok dates =>
                match areasList tsW with
                | .error e => .error e
                | .ok areas => buildAreas dates wtd stm 0 areas

/-- `DataManager._parse_jma_data` (rewrite_.py lines 108-198): the blanket
`except` converts every failure of the body into an empty result. -/
def parseJmaData (j : Json) : List SubArea :=
  match parseJmaBody j with
  | .ok l => l
  | .error _ => []

/-- Row of the `weather_history` table (db_manager.py lines 40-73): region
name, the persisted normalized payload (the JSON serialization round-trip of
`json.dumps`/`json.loads` is modelled as the identity on the payload) and
the `fetched_at` timestamp text. -/
structure Snapshot where
  areaName : String
  payload : List SubArea
  fetchedAt : String

/-- Persistent state of `WeatherDB`: the `saved_areas` table as an
insertion-ordered list of (name, code) rows and the `weather_history` table
as an insertion-ordered list of snapshot rows. -/
structure DBState where
  saved : List (String × String)
  history : List Snapshot

/-- `WeatherDB.add_saved_area` (db_manager.py lines 95-106): `INSERT OR
IGNORE` with `area_name` as primary key appends a row only when no row with
that name exists. -/
def addSavedArea (db : DBState) (name code : String) : DBState :=
  if db.saved.any (fun p => p.1 == name) then db
  else { db with saved := db.saved ++ [(name, code)] }

/-- `WeatherDB.remove_saved_area` (db_manager.py lines 108-118): deletes the
`saved_areas` rows with the given name; the commented-out `weather_history`
delete is not executed, and sqlite foreign keys are not enforced by the
`sqlite3` defaults, so the history table is untouched. -/
def removeSavedArea (db : DBState) (name : String) : DBState :=
  { db with saved := db.saved.filter (fun p => p.1 != name) }

/-- Scan of the history rows of one region implementing `ORDER BY fetched_at
DESC LIMIT 1`: keeps the row with the lexicographically greatest
`fetched_at` text (sqlite leaves the order of ties unspecified; the model
keeps the earliest such row). -/
def pickLatest : List Snapshot → Option Snapshot
  | [] => none
  | s :: rest =>
    match pickLatest rest with
    | none => some s
    | some t => if s.fetchedAt < t.fetchedAt then some t else some s

/-- `WeatherDB.get_latest_weather_data` (db_manager.py lines 147-169):
the most recent history row for the region, as `(payload, fetched_at)`, or
`none` when the region has no rows. -/
def getLatestWeatherData (db : DBState) (name : String) :
    Option (List SubArea × String) :=
  match pickLatest (db.history.filter (fun s => s.areaName == name)) with
  | none => none
  | some s => some (s.payload, s.fetchedAt)

/-- `WeatherDB.save_weather_data` (db_manager.py lines 122-145), reached via
the `save_weather_cache` compatibility wrapper: inserts a new history row,
never replacing existing ones; the `fetched_at` argument defaults to the
current clock reading, passed here explicitly. -/
def saveWeatherData (db : DBState) (name : String) (payload : List SubArea)
    (fetchedAt : String) : DBState :=
  { db with history := db.history ++ [⟨name, payload, fetchedAt⟩] }

/-- Session-level in-memory cache `DataManager.weather_data`, an association
of region name to parsed payload. -/
def MemCache := List (String × List SubArea)

/-- Python dict assignment `self.weather_data[region_name] = parsed_data`:
replaces any existing binding for the key. -/
def memSet (m : MemCache) (k : String) (v : List SubArea) : MemCache :=
  (List.filter (fun p => p.1 != k) m) ++ [(k, v)]

/-- `DataManager.fetch_weather_data` (rewrite_.py lines 79-106).  The
network interaction (`requests.get`, `raise_for_status`, `r.json()`) is
modelled by its outcome `net`; `now` is the clock reading used for the
persisted snapshot.  On a decoded document the parser runs; a non-empty
parse is cached, persisted and reported as `(True, "online")`, while an
empty parse falls through to `return False, None`.  On a network error the
latest persisted snapshot is consulted: a truthy (non-empty) payload is
cached and reported as `(True, fetched_at)`, anything else yields
`(False, None)`. -/
def fetchWeatherData (net : Except Unit Json) (regionName : String)
    (now : String) (mem : MemCache) (db : DBState) :
    MemCache × DBState × Bool × Option String :=
  match net with
  | .ok raw =>
    let parsed := parseJmaData raw
    if !parsed.isEmpty then
      (memSet mem regionName parsed,
       saveWeatherData db regionName parsed now, true, some "online")
    else (mem, db, false, none)
  | .error _ =>
    match getLatestWeatherData db regionName with
    | some (data, ts) =>
      if !data.isEmpty then (memSet mem regionName data, db, true, some ts)
      else (mem, db, false, none)
    | none => (mem, db, false, none)

/-- Favorites-related state of `WeatherApp`: the session list
`current_saved_regions` and the persisted `saved_areas` table.  The
`update_weather_display` call made by `add_region` touches only the weather
cache and the history table, never these two components, so they form a
self-contained state for the favorites operations. -/
structure FavView where
  regions : List String
  saved : List (String × String)

/-- `WeatherApp.add_region` (rewrite_.py lines 450-461) restricted to the
favorites state: a falsy (empty) name or a name already in
`current_saved_regions` leaves the state unchanged (the early return merely
re-displays); otherwise the region code is looked up (defaulting to `""`),
the row is added with `INSERT OR IGNORE`, and the name is appended to the
session list. -/
def addRegionFav (nameToId : List (String × String)) (name : String)
    (v : FavView) : FavView :=
  if name == "" || v.regions.contains name then v
  else
    let code := (((nameToId.find? (fun p => p.1 == name)).map
      (fun p => p.2)).getD "")
    { regions := v.regions ++ [name],
      saved := (addSavedArea ⟨v.saved, []⟩ name code).saved }

/-- C1: for every weather code string that parses as an integer `c`, the
status text is each of the five categories exactly on its half-open range:
`[100,200)` clear, `[200,300)` cloudy, `[300,400)` rain, `[400,500)` snow,
and the unknown dash exactly outside `[100,500)`, so the boundaries
99/100/199/200/... fall as the ranges state. -/
theorem statusText_half_open_ranges (s : String) (c : Int)
    (h : pyInt (Json.str s) = .ok c) :
    (statusText (Json.str s) = "晴れ" ↔ 100 ≤ c ∧ c < 200) ∧
    (statusText (Json.str s) = "くもり" ↔ 200 ≤ c ∧ c < 300) ∧
    (statusText (Json.str s) = "雨" ↔ 300 ≤ c ∧ c < 400) ∧
    (statusText (Json.str s) = "雪" ↔ 400 ≤ c ∧ c < 500) ∧
    (statusText (Json.str s) = "-" ↔ (c < 100 ∨ 500 ≤ c)) := by
  have hs : statusText (Json.str s) = statusTextInt c := by
    unfold statusText
    rw [h]
  rw [hs]
  unfold statusTextInt
  split_ifs with h1 h2 h3 h4 <;>
    refine ⟨?_, ?_, ?_, ?_, ?_⟩ <;> constructor <;> intro hx <;>
      first
        | rfl
        | omega
        | exact absurd hx (by decide)

/-- Closed instance of `statusText_half_open_ranges` at the code string
"205", together with direct checks of the boundary codes the claim lists. -/
theorem statusText_half_open_ranges_witness :
    statusText (Json.str "205") = "くもり" ∧
    statusText (Json.str "99") = "-" ∧
    statusText (Json.str "100") = "晴れ" ∧
    statusText (Json.str "199") = "晴れ" ∧
    statusText (Json.str "200") = "くもり" ∧
    statusText (Json.str "500") = "-" :=
  ⟨((statusText_half_open_ranges "205" 205 rfl).2.1).mpr (by omega),
   ((statusText_half_open_ranges "99" 99 rfl).2.2.2.2).mpr (by omega),
   ((statusText_half_open_ranges "100" 100 rfl).1).mpr (by omega),
   ((statusText_half_open_ranges "199" 199 rfl).1).mpr (by omega),
   ((statusText_half_open_ranges "200" 200 rfl).2.1).mpr (by omega),
   ((statusText_half_open_ranges "500" 500 rfl).2.2.2.2).mpr (by omega)⟩

/-- C2: concrete evaluations of the two display-temperature variants on the
weekly-range pairs the claim describes, at forecast step 1.  The db variant
(`formatTemperature`, rewrite_.py lines 247-251) matches the claim,
including `"--"` for the both-empty pair; the lecture-5 variant
(`formatTemperatureMfin`, mfin.py lines 165-169) renders the both-empty
pair as the bare string `"°C"`, contradicting the claimed `"--"`. -/
theorem formatTemperature_pair_cases_eval :
    formatTemperature
        (some (.weekly (Json.arr [Json.str "9", Json.str "5"])
                       (Json.arr [Json.str "9", Json.str "10"])))
        (Json.arr []) 1 = .ok "5-10°C" ∧
    formatTemperature
        (some (.weekly (Json.arr [Json.str "9", Json.str "5"])
                       (Json.arr [Json.str "9", Json.str ""])))
        (Json.arr []) 1 = .ok "5°C" ∧
    formatTemperature
        (some (.weekly (Json.arr [Json.str "9", Json.str ""])
                       (Json.arr [Json.str "9", Json.str "10"])))
        (Json.arr []) 1 = .ok "10°C" ∧
    formatTemperature
        (some (.weekly (Json.arr [Json.str "9", Json.str ""])
                       (Json.arr [Json.str "9", Json.str ""])))
        (Json.arr []) 1 = .ok "--" ∧
    formatTemperatureMfin
        (some (.weekly (Json.arr [Json.str "9", Json.str ""])
                       (Json.arr [Json.str "9", Json.str ""])))
        (Json.arr []) 1 = .ok "°C" :=
  ⟨rfl, rfl, rfl, rfl, rfl⟩

/-- C3: for a weekly-range area at step 0 whose min or max entry is the
empty string, both variants compute the display temperature from the
short-term list alone, regardless of the weekly values: two or more
short-term values give `"v0-v1°C"`, exactly one gives `"v0°C"`, none gives
`"--"`. -/
theorem formatTemperature_step0_short_fallback
    (mins maxs : Json) (l : List Json) (a b : Json)
    (hmin : getIdx mins 0 = .ok a) (hmax : getIdx maxs 0 = .ok b)
    (hempty : isEmptyStr a = true ∨ isEmptyStr b = true) :
    formatTemperature (some (.weekly mins maxs)) (Json.arr l) 0 =
      .ok (match l with
           | [] => "--"
           | [v] => pyStr v ++ "°C"
           | v0 :: v1 :: _ => pyStr v0 ++ "-" ++ pyStr v1 ++ "°C") ∧
    formatTemperatureMfin (some (.weekly mins maxs)) (Json.arr l) 0 =
      .ok (match l with
           | [] => "--"
           | [v] => pyStr v ++ "°C"
           | v0 :: v1 :: _ => pyStr v0 ++ "-" ++ pyStr v1 ++ "°C") := by
  have hcond : (isEmptyStr a || isEmptyStr b) = true := by
    rcases hempty with h | h <;> simp [h]
  constructor <;>
  · simp only [formatTemperature, formatTemperatureMfin, hmin, hmax, hcond]
    rcases l with _ | ⟨v0, _ | ⟨v1, rest⟩⟩ <;>
      simp [truthy, pyLen, pyIter, getIdx, List.isEmpty]

/-- Closed instance of `formatTemperature_step0_short_fallback`: the weekly
pair has an empty min at step 0, and the two short-term values drive the
display. -/
theorem formatTemperature_step0_short_fallback_witness :
    formatTemperature
        (some (.weekly (Json.arr [Json.str ""]) (Json.arr [Json.str "5"])))
        (Json.arr [Json.str "3", Json.str "9"]) 0 = .ok "3-9°C" ∧
    formatTemperatureMfin
        (some (.weekly (Json.arr [Json.str ""]) (Json.arr [Json.str "5"])))
        (Json.arr [Json.str "3", Json.str "9"]) 0 = .ok "3-9°C" :=
  formatTemperature_step0_short_fallback
    (Json.arr [Json.str ""]) (Json.arr [Json.str "5"])
    [Json.str "3", Json.str "9"] (Json.str "") (Json.str "5")
    rfl rfl (Or.inl rfl)

/-- C6: the normalizer is a total function into forecast lists: on every
input value it either yields the empty list or its guarded body succeeded
and the successful value is returned unchanged — every structural failure of
the body is swallowed into the empty list, and no exception escapes. -/
theorem parseJmaData_never_raises (j : Json) :
    parseJmaData j = [] ∨ parseJmaBody j = .ok (parseJmaData j) := by
  cases h : parseJmaBody j with
  | error e => left; simp [parseJmaData, h]
  | ok l => right; simp [parseJmaData, h]

/-- C9: in the db-backed variant, a decoded document whose normalization is
empty makes `fetch_weather_data` return `(False, None)` directly, leaving
the in-memory cache and the whole persisted store untouched and never
consulting the snapshot fallback. -/
theorem fetch_empty_parse_returns_failure
    (raw : Json) (name now : String) (mem : MemCache) (db : DBState)
    (h : parseJmaData raw = []) :
    fetchWeatherData (.ok raw) name now mem db = (mem, db, false, none) := by
  simp [fetchWeatherData, h]

/-- Closed instance of `fetch_empty_parse_returns_failure`: a `null`
document parses to the empty list and the fetch reports plain failure. -/
theorem fetch_empty_parse_returns_failure_witness :
    fetchWeatherData (.ok Json.null) "東京都" "2025-01-05T12:00:00" []
        ⟨[], []⟩ = ([], ⟨[], []⟩, false, none) :=
  fetch_empty_parse_returns_failure Json.null "東京都" "2025-01-05T12:00:00"
    [] ⟨[], []⟩ rfl

/-- C5: when the weekly report's identification loop finds no series with
`weatherCodes` among the keys of its first area, the normalizer returns the
empty list (the explicit `return []` at rewrite_.py lines 134-135). -/
theorem parse_missing_weather_series_empty
    (j : Json) (rp : Json × Json) (tsT : Option Json)
    (hrp : getReports j = .ok rp)
    (hsplit : weeklySplit rp.2 = .ok (none, tsT)) :
    parseJmaData j = [] := by
  simp only [parseJmaData, parseJmaBody, hrp]
  cases hst : shortPhase rp.1 with
  | error e => simp [hst]
  | ok stm => simp [hst, hsplit]

/-- Short-range half of the document used to witness the missing-weather
claim: a report with an empty `timeSeries` list. -/
def noWeatherShort : Json := Json.obj [("timeSeries", Json.arr [])]

/-- Weekly series carrying only a temperature key, hence never selected as
the weather series. -/
def noWeatherSeries : Json :=
  Json.obj [("areas", Json.arr [Json.obj [("temps", Json.arr [])]])]

/-- Weekly half of the witness document for the missing-weather claim. -/
def noWeatherWeekly : Json :=
  Json.obj [("timeSeries", Json.arr [noWeatherSeries])]

/-- Document whose weekly report has a `timeSeries` list with no
`weatherCodes` series. -/
def noWeatherDoc : Json := Json.arr [noWeatherShort, noWeatherWeekly]

/-- Closed instance of `parse_missing_weather_series_empty` on
`noWeatherDoc`. -/
theorem parse_missing_weather_series_empty_witness :
    parseJmaData noWeatherDoc = [] :=
  parse_missing_weather_series_empty noWeatherDoc
    (noWeatherShort, noWeatherWeekly) (some noWeatherSeries) rfl rfl

/-- Successful date formatting yields one label per `timeDefines` entry. -/
theorem formatDates_length :
    ∀ (ts : List Json) (ds : List String),
      formatDates ts = .ok ds → ds.length = ts.length := by
  intro ts
  induction ts with
  | nil =>
    intro ds h
    simp only [formatDates, Except.ok.injEq] at h
    subst h
    rfl
  | cons t rest ih =>
    intro ds h
    simp only [formatDates] at h
    cases hd : formatDate t with
    | error e => rw [hd] at h; cases h
    | ok d =>
      rw [hd] at h
      cases hr : formatDates rest with
      | error e => rw [hr] at h; cases h
      | ok ds2 =>
        rw [hr] at h
        simp only [Except.ok.injEq] at h
        subst h
        simp [ih ds2 hr]

/-- The forecast loop over a weather-code list produces exactly
`min (remaining codes) (remaining dates)` entries: one per date label from
position `i` on, breaking when the code list runs out. -/
theorem buildFrom_length (wcs : List Json) (wt : Option WeeklyTemps)
    (st : Json) :
    ∀ (ds : List String) (i : Nat) (fs : List Forecast),
      buildFrom (Json.arr wcs) wt st i ds = .ok fs →
      fs.length = min (wcs.length - i) ds.length := by
  intro ds
  induction ds with
  | nil =>
    intro i fs h
    simp only [buildFrom, Except.ok.injEq] at h
    subst h
    simp
  | cons d rest ih =>
    intro i fs h
    simp only [buildFrom,
      show pyLen (Json.arr wcs) = .ok wcs.length from rfl] at h
    by_cases hle : wcs.length ≤ i
    · rw [if_pos hle] at h
      simp only [Except.ok.injEq] at h
      subst h
      simp
      omega
    · rw [if_neg hle] at h
      cases hg : getIdx (Json.arr wcs) i with
      | error e => simp only [hg] at h; cases h
      | ok c =>
        simp only [hg] at h
        cases hic : iconAndColor c with
        | error e => simp only [hic] at h; cases h
        | ok ic =>
          simp only [hic] at h
          cases ht : formatTemperature wt st i with
          | error e => simp only [ht] at h; cases h
          | ok t =>
            simp only [ht] at h
            cases hb : buildFrom (Json.arr wcs) wt st (i + 1) rest with
            | error e => simp only [hb] at h; cases h
            | ok fs2 =>
              simp only [hb, Except.ok.injEq] at h
              subst h
              have h2 := ih (i + 1) fs2 hb
              simp only [List.length_cons, h2]
              omega

/-- A successfully built subregion whose `weatherCodes` value is a list has
exactly `min (codes) (dates)` forecast entries. -/
theorem buildArea_forecast_length
    (dates : List String) (wtd : List WeeklyTemps) (stm : List Json)
    (i : Nat) (area : Json) (sa : SubArea) (wcs : List Json)
    (h : buildArea dates wtd stm i area = .ok sa)
    (hkey : getKey area "weatherCodes" = .ok (Json.arr wcs)) :
    sa.forecasts.length = min wcs.length dates.length := by
  simp only [buildArea] at h
  cases h1 : getKey area "area" with
  | error e => simp only [h1] at h; cases h
  | ok areaObj =>
    simp only [h1] at h
    cases h2 : getKey areaObj "name" with
    | error e => simp only [h2] at h; cases h
    | ok name =>
      simp only [h2, hkey] at h
      cases hb : buildFrom (Json.arr wcs) (wtd.get? i)
          ((stm.get? i).getD (Json.arr [])) 0 dates with
      | error e => simp only [hb] at h; cases h
      | ok fs =>
        simp only [hb, Except.ok.injEq] at h
        subst h
        have := buildFrom_length wcs (wtd.get? i)
          ((stm.get? i).getD (Json.arr [])) dates 0 fs hb
        simpa using this

/-- Counting property of the per-area assembly loop: the `k`-th produced
subregion record has `min (its weather codes) (dates)` entries. -/
theorem buildAreas_count
    (dates : List String) (wtd : List WeeklyTemps) (stm : List Json) :
    ∀ (areas : List Json) (i : Nat) (res : List SubArea),
      buildAreas dates wtd stm i areas = .ok res →
      ∀ (k : Nat) (sa : SubArea) (area : Json) (wcs : List Json),
        res.get? k = some sa → areas.get? k = some area →
        getKey area "weatherCodes" = .ok (Json.arr wcs) →
        sa.forecasts.length = min wcs.length dates.length := by
  intro areas
  induction areas with
  | nil =>
    intro i res h k sa area wcs hres harea hkey
    cases harea
  | cons a rest ih =>
    intro i res h k sa area wcs hres harea hkey
    simp only [buildAreas] at h
    cases hba : buildArea dates wtd stm i a with
    | error e => simp only [hba] at h; cases h
    | ok sa0 =>
      simp only [hba] at h
      cases hbs : buildAreas dates wtd stm (i + 1) rest with
      | error e => simp only [hbs] at h; cases h
      | ok sas =>
        simp only [hbs, Except.ok.injEq] at h
        subst h
        cases k with
        | zero =>
          simp only [List.get?] at hres harea
          injection hres with h1
          injection harea with h2
          subst h1
          subst h2
          exact buildArea_forecast_length dates wtd stm i _ _ wcs
            hba hkey
        | succ k =>
          simp only [List.get?] at hres harea
          exact ih (i + 1) sas hbs k sa area wcs hres harea hkey

/-- C4: whenever the normalizer body succeeds, the `k`-th subregion record
holds exactly `min (length of that subregion's weatherCodes list, length of
the weekly timeDefines list)` forecast entries — a short weather-code list
truncates the output, and the count never exceeds either list. -/
theorem parse_forecast_entry_count
    (j : Json) (res : List SubArea) (rp : Json × Json) (tsW : Json)
    (tsT : Option Json) (tds : List Json) (areas : List Json)
    (k : Nat) (area : Json) (wcs : List Json) (sa : SubArea)
    (hok : parseJmaBody j = .ok res)
    (hrp : getReports j = .ok rp)
    (hsplit : weeklySplit rp.2 = .ok (some tsW, tsT))
    (htds : timeDefinesList tsW = .ok tds)
    (hareas : areasList tsW = .ok areas)
    (harea : areas.get? k = some area)
    (hwcs : getKey area "weatherCodes" = .ok (Json.arr wcs))
    (hres : res.get? k = some sa) :
    sa.forecasts.length = min wcs.length tds.length := by
  simp only [parseJmaBody, hrp] at hok
  cases hst : shortPhase rp.1 with
  | error e => simp only [hst] at hok; cases hok
  | ok stm =>
    simp only [hst, hsplit] at hok
    cases hwt : weeklyTempPhase tsT with
    | error e => simp only [hwt] at hok; cases hok
    | ok wtd =>
      simp only [hwt, htds] at hok
      cases hdates : formatDates tds with
      | error e => simp only [hdates] at hok; cases hok
      | ok dates =>
        simp only [hdates, hareas] at hok
        have hdl := formatDates_length tds dates hdates
        have := buildAreas_count dates wtd stm areas 0 res hok
          k sa area wcs hres harea hwcs
        rw [hdl] at this
        exact this

/-- Short-range report of the counting witness document: no temperature
series at all. -/
def sampleShortReport : Json := Json.obj [("timeSeries", Json.arr [])]

/-- Weather area of the counting witness: one weather code against three
forecast dates. -/
def sampleWeatherArea : Json :=
  Json.obj [("area", Json.obj [("name", Json.str "東京地方")]),
            ("weatherCodes", Json.arr [Json.str "100"])]

/-- Time definitions of the counting witness: three forecast steps. -/
def sampleTimeDefines : List Json :=
  [Json.str "2025-01-01T00:00:00+09:00",
   Json.str "2025-01-02T00:00:00+09:00",
   Json.str "2025-01-03T00:00:00+09:00"]

/-- Weather series of the counting witness. -/
def sampleWeatherSeries : Json :=
  Json.obj [("timeDefines", Json.arr sampleTimeDefines),
            ("areas", Json.arr [sampleWeatherArea])]

/-- Weekly report of the counting witness. -/
def sampleWeeklyReport : Json :=
  Json.obj [("timeSeries", Json.arr [sampleWeatherSeries])]

/-- Document whose weather-code list is two entries shorter than its
`timeDefines` list. -/
def sampleForecastDoc : Json :=
  Json.arr [sampleShortReport, sampleWeeklyReport]

/-- Normalized output of `sampleForecastDoc`. -/
def sampleSubArea : SubArea :=
  { areaName := Json.str "東京地方",
    forecasts := [{ day := "1/1", icon := "WB_SUNNY", status := "晴れ",
                    temp := "--", color := "ORANGE" }] }

/-- Closed instance of `parse_forecast_entry_count`: one weather code
against three dates yields exactly `min 1 3 = 1` forecast entries. -/
theorem parse_forecast_entry_count_witness :
    sampleSubArea.forecasts.length = min 1 3 :=
  parse_forecast_entry_count sampleForecastDoc [sampleSubArea]
    (sampleShortReport, sampleWeeklyReport) sampleWeatherSeries none
    sampleTimeDefines [sampleWeatherArea] 0 sampleWeatherArea
    [Json.str "100"] sampleSubArea rfl rfl rfl rfl rfl rfl rfl rfl

/-- C7: the fetch operation.  On a decoded document with a non-empty
normalization it caches the result under the region name, appends a new
history snapshot stamped `now`, and reports `(True, "online")`.  On a
network failure it consults the most recent persisted snapshot: a snapshot
with a (truthy) non-empty payload is loaded into the cache and reported as
success tagged with its fetch timestamp, while an absent snapshot yields
`(False, None)` with the state untouched.  (A snapshot with an empty
payload would be treated as absent; fetch itself only ever persists
non-empty payloads, rewrite_.py line 90.) -/
theorem fetch_online_and_fallback
    (raw : Json) (name now : String) (mem : MemCache) (db : DBState) :
    (parseJmaData raw ≠ [] →
      fetchWeatherData (.ok raw) name now mem db =
        (memSet mem name (parseJmaData raw),
         { db with history :=
             db.history ++ [⟨name, parseJmaData raw, now⟩] },
         true, some "online")) ∧
    (∀ (data : List SubArea) (ts : String),
      getLatestWeatherData db name = some (data, ts) → data ≠ [] →
      fetchWeatherData (.error ()) name now mem db =
        (memSet mem name data, db, true, some ts)) ∧
    (getLatestWeatherData db name = none →
      fetchWeatherData (.error ()) name now mem db =
        (mem, db, false, none)) := by
  refine ⟨?_, ?_, ?_⟩
  · intro h
    cases hp : parseJmaData raw with
    | nil => exact absurd hp h
    | cons x xs => simp [fetchWeatherData, hp, saveWeatherData]
  · intro data ts hlatest hdata
    cases data with
    | nil => exact absurd rfl hdata
    | cons x xs => simp [fetchWeatherData, hlatest]
  · intro hnone
    simp [fetchWeatherData, hnone]

/-- Closed instances of the three branches of `fetch_online_and_fallback`:
a successful fetch of `sampleForecastDoc`, a failed fetch recovered from a
stored snapshot, and a failed fetch with an empty store. -/
theorem fetch_online_and_fallback_witness :
    fetchWeatherData (.ok sampleForecastDoc) "東京都" "2025-01-05T09:00:00"
        [] ⟨[], []⟩ =
      (memSet [] "東京都" (parseJmaData sampleForecastDoc),
       ⟨[], [⟨"東京都", parseJmaData sampleForecastDoc,
              "2025-01-05T09:00:00"⟩]⟩, true, some "online") ∧
    fetchWeatherData (.error ()) "東京都" "2025-01-05T09:00:00" []
        ⟨[], [⟨"東京都", [sampleSubArea], "2025-01-04T09:00:00"⟩]⟩ =
      (memSet [] "東京都" [sampleSubArea],
       ⟨[], [⟨"東京都", [sampleSubArea], "2025-01-04T09:00:00"⟩]⟩,
       true, some "2025-01-04T09:00:00") ∧
    fetchWeatherData (.error ()) "大阪府" "2025-01-05T09:00:00" []
        ⟨[], []⟩ = ([], ⟨[], []⟩, false, none) := by
  refine
    ⟨(fetch_online_and_fallback sampleForecastDoc "東京都"
        "2025-01-05T09:00:00" [] ⟨[], []⟩).1 ?_,
     (fetch_online_and_fallback sampleForecastDoc "東京都"
        "2025-01-05T09:00:00" []
        ⟨[], [⟨"東京都", [sampleSubArea], "2025-01-04T09:00:00"⟩]⟩).2.1
       [sampleSubArea] "2025-01-04T09:00:00" rfl (by simp),
     (fetch_online_and_fallback sampleForecastDoc "大阪府"
        "2025-01-05T09:00:00" [] ⟨[], []⟩).2.2 rfl⟩
  rw [show parseJmaData sampleForecastDoc = [sampleSubArea] from rfl]
  simp

/-- C10: removing a favorite deletes only the matching `saved_areas` rows:
the whole history table is unchanged, every latest-snapshot query answers
exactly as before, and the saved table loses precisely the rows carrying the
removed name. -/
theorem remove_saved_area_keeps_history (db : DBState) (name : String) :
    (removeSavedArea db name).history = db.history ∧
    (∀ n, getLatestWeatherData (removeSavedArea db name) n =
      getLatestWeatherData db n) ∧
    (removeSavedArea db name).saved =
      db.saved.filter (fun p => p.1 != name) :=
  ⟨rfl, fun _ => rfl, rfl⟩

/-- C8: adding a favorite whose name is not yet present appends it at the
end of the session list and inserts exactly one persisted row; a second add
of the same name is a no-op on the whole favorites state, so the name
occurs exactly once, its position is unchanged and no duplicate row
appears. -/
theorem add_favorite_idempotent
    (nameToId : List (String × String)) (name : String) (v : FavView)
    (hne : name ≠ "")
    (h0 : name ∉ v.regions)
    (h1 : ∀ p ∈ v.saved, p.1 ≠ name) :
    addRegionFav nameToId name (addRegionFav nameToId name v) =
      addRegionFav nameToId name v ∧
    (addRegionFav nameToId name v).regions = v.regions ++ [name] ∧
    (addRegionFav nameToId name v).regions.count name = 1 ∧
    ((addRegionFav nameToId name v).saved.filter
        (fun p => p.1 == name)).length = 1 := by
  have hbe : (name == "") = false := by
    simp [hne]
  have hcont : v.regions.contains name = false := by
    simpa using h0
  have hany : v.saved.any (fun p => p.1 == name) = false := by
    simp only [List.any_eq_false]
    intro p hp
    simpa using h1 p hp
  have hfilter : v.saved.filter (fun p => p.1 == name) = [] := by
    rw [List.filter_eq_nil_iff]
    intro p hp
    simpa using h1 p hp
  have hv1 : addRegionFav nameToId name v =
      { regions := v.regions ++ [name],
        saved := v.saved ++
          [(name,
            (((nameToId.find? (fun p => p.1 == name)).map
              (fun p => p.2)).getD ""))] } := by
    simp [addRegionFav, addSavedArea, hbe, hcont, hany, h0]
  refine ⟨?_, ?_, ?_, ?_⟩
  · rw [hv1]
    simp [addRegionFav]
  · rw [hv1]
  · rw [hv1]
    simp [List.count_append, List.count_eq_zero, h0]
  · rw [hv1]
    simp [List.filter_append, hfilter]

/-- Closed instance of `add_favorite_idempotent`: adding 大阪府 twice to a
favorites state holding only 東京都. -/
theorem add_favorite_idempotent_witness :
    addRegionFav [("大阪府", "270000")] "大阪府"
        (addRegionFav [("大阪府", "270000")] "大阪府"
          ⟨["東京都"], [("東京都", "130000")]⟩) =
      addRegionFav [("大阪府", "270000")] "大阪府"
        ⟨["東京都"], [("東京都", "130000")]⟩ ∧
    (addRegionFav [("大阪府", "270000")] "大阪府"
        ⟨["東京都"], [("東京都", "130000")]⟩).regions =
      ["東京都"] ++ ["大阪府"] ∧
    (addRegionFav [("大阪府", "270000")] "大阪府"
        ⟨["東京都"], [("東京都", "130000")]⟩).regions.count "大阪府" = 1 ∧
    ((addRegionFav [("大阪府", "270000")] "大阪府"
        ⟨["東京都"], [("東京都", "130000")]⟩).saved.filter
      (fun p => p.1 == "大阪府")).length = 1 :=
  add_favorite_idempotent [("大阪府", "270000")] "大阪府"
    ⟨["東京都"], [("東京都", "130000")]⟩ (by decide) (by decide) (by decide)
